import Mathlib

/-!
MeasureTool overlay UI (OverlayUI.cpp).

A shallow embedding of `src/modules/MeasureTool/MeasureToolCore/OverlayUI.cpp`.

Win32 and Direct2D calls have no return value that the code inspects unless
stated otherwise; they are recorded, in program order, in a list of `Call`s.
Outcomes of the calls that the code does inspect (a null handle, a failed
query) are inputs of the embedded functions.  Window messages, virtual keys
and show commands are the numeric codes of the Windows headers.
-/

namespace OverlayUI

/-! ## Geometry -/

/-- Win32 `POINT`: two `LONG` coordinates. -/
structure POINT where
  x : Int
  y : Int
deriving DecidableEq, Repr

/-- Win32 `RECT`: four `LONG` coordinates. -/
structure RECT where
  left : Int
  top : Int
  right : Int
  bottom : Int
deriving DecidableEq, Repr

/-- The Windows API function `PtInRect`: a point is inside a rectangle when it is
on the left or top edge or strictly within; the right and bottom edges are
outside. -/
def PtInRect (r : RECT) (p : POINT) : Bool :=
  decide (r.left ≤ p.x) && decide (p.x < r.right) &&
    decide (r.top ≤ p.y) && decide (p.y < r.bottom)

/-- Modelled from the spec: `Box` is declared in `ToolState.h`, which is not among
the sources.  It wraps a `RECT` and gives its edges and extent. -/
structure Box where
  rect : RECT
deriving DecidableEq, Repr

namespace Box

def left (b : Box) : Int := b.rect.left
def top (b : Box) : Int := b.rect.top
def right (b : Box) : Int := b.rect.right
def bottom (b : Box) : Int := b.rect.bottom
def width (b : Box) : Int := b.right - b.left
def height (b : Box) : Int := b.bottom - b.top

/-- Modelled from the spec: `Box::inside` is declared in `ToolState.h`, which is not
among the sources.  It is the point-in-rectangle test of the render loop
("point-in-toolbar-rect", "point-in-monitor-rect"). -/
def inside (b : Box) (p : POINT) : Bool := PtInRect b.rect p

end Box

/-- A GDI region handle, as far as this file builds regions: rectangles
(`CreateRectRgn`) and differences (`CombineRgn` with `RGN_DIFF`). -/
inductive HRGN where
  | rect (r : RECT)
  | diff (a b : HRGN)
deriving DecidableEq, Repr

/-- The Windows API function `CreateRectRgn(x1, y1, x2, y2)` for an upper-left and
a lower-right corner; the region holds the interior and the left and top
edges of the rectangle. -/
def CreateRectRgn (x1 y1 x2 y2 : Int) : HRGN :=
  HRGN.rect { left := x1, top := y1, right := x2, bottom := y2 }

/-- The points of a region. -/
def HRGN.contains : HRGN → POINT → Bool
  | HRGN.rect r, p => PtInRect r p
  | HRGN.diff a b, p => a.contains p && !b.contains p

/-! ## Codes of the Windows headers -/

def WM_CREATE : Nat := 0x0001
def WM_CLOSE : Nat := 0x0010
def WM_ERASEBKGND : Nat := 0x0014
def WM_KEYUP : Nat := 0x0101
def WM_LBUTTONDOWN : Nat := 0x0201
def WM_LBUTTONUP : Nat := 0x0202
def WM_RBUTTONUP : Nat := 0x0205
def WM_USER : Nat := 0x0400
def VK_ESCAPE : Nat := 0x1B
def SW_HIDE : Nat := 0
def SW_SHOWNORMAL : Nat := 1
def SW_SHOW : Nat := 5
def CF_UNICODETEXT : Nat := 13

/-! ## Calls on the window and the render target -/

/-- The two window classes registered by `CreateOverlayWindowClasses`. -/
inductive WindowClass where
  | MeasureToolOverlayWindowName
  | BoundsToolOverlayWindowName
deriving DecidableEq, Repr

/-- The calls the overlay code issues on its window, its render target and the
system, in the order of the program text. -/
inductive Call where
  | CreateWindowExW (lpClassName : WindowClass) (x y nWidth nHeight : Int) (lpParam : Nat)
  | SetWindowPosTopmost
  | DwmEnableBlurBehindWindow (blurRegion : HRGN)
  | SetWindowRgn (region : HRGN)
  | BeginDraw
  | Clear
  | tickFunc
  | EndDraw
  | InvalidateRect
  | PostMessageW (message : Nat)
  | ShowWindow (nCmdShow : Nat)
  | run_message_loop
  | DestroyWindow
  | ShowCursor (bShow : Bool)
  | SetClipBoardToText (text : List Nat)
  | DefWindowProcW (message wparam lparam : Nat)
deriving DecidableEq, Repr

/-- Visibility of the window after a sequence of calls: `ShowWindow` with
`SW_HIDE` hides it, `ShowWindow` with any other command shows it, no other
call of this file changes it. -/
def windowVisibleAfter (visible : Bool) : List Call → Bool
  | [] => visible
  | Call.ShowWindow nCmdShow :: rest => windowVisibleAfter (decide (nCmdShow ≠ SW_HIDE)) rest
  | _ :: rest => windowVisibleAfter visible rest

/-! ## Shared state -/

/-- The fields of `CommonState` that this file reads.  `overlayBoxText` is the
buffer of wide characters of the overlay label. -/
structure CommonState where
  cursorPos : POINT
  toolbarBoundingBox : Box
  overlayBoxText : List Nat
deriving DecidableEq, Repr

/-- The descriptor of a display: `GetScreenSize(includeNonWorkingArea)` and
`IsPrimary()`. -/
structure MonitorInfo where
  GetScreenSize : Bool → Box
  IsPrimary : Bool

/-- The fields of `OverlayUIState` that the render loop reads and writes. -/
structure OverlayUIState where
  _monitorArea : Box
  _cursorOnScreen : Bool
deriving DecidableEq, Repr

/-! ## OverlayUIState::RunUILoop -/

/-- One pass through the body of the `while (IsWindow(_window))` loop of
`RunUILoop`; `commonState` is what `_commonState` holds when the pass reads it. -/
def RunUILoop.iteration (commonState : CommonState) (s : OverlayUIState) :
    OverlayUIState × List Call :=
  let cursor := commonState.cursorPos
  let cursorOverToolbar := commonState.toolbarBoundingBox.inside cursor
  let cursorOnScreen := s._monitorArea.inside cursor
  let draw := !cursorOverToolbar && cursorOnScreen
  let drawCalls :=
    [Call.BeginDraw, Call.Clear] ++ (if draw then [Call.tickFunc] else []) ++
      [Call.EndDraw] ++ (if draw then [Call.InvalidateRect] else [])
  if cursorOnScreen != s._cursorOnScreen then
    ({ s with _cursorOnScreen := cursorOnScreen },
      drawCalls ++
        [Call.PostMessageW WM_USER,
          Call.ShowWindow (if cursorOnScreen then SW_SHOW else SW_HIDE)] ++
        [Call.run_message_loop])
  else
    (s, drawCalls ++ [Call.run_message_loop])

/-- Successive passes through the loop body, one for every snapshot of the
shared state read while the window exists; the calls are concatenated. -/
def RunUILoop.iterations : List CommonState → OverlayUIState → OverlayUIState × List Call
  | [], s => (s, [])
  | commonState :: rest, s =>
    let r := RunUILoop.iteration commonState s
    let r2 := RunUILoop.iterations rest r.1
    (r2.1, r.2 ++ r2.2)

/-- An overlay window together with its `OverlayUIState`. -/
structure Overlay where
  ui : OverlayUIState
  visible : Bool
deriving DecidableEq, Repr

/-- One pass through the loop body, with its `ShowWindow` calls applied to
the window. -/
def Overlay.iteration (commonState : CommonState) (o : Overlay) : Overlay :=
  let r := RunUILoop.iteration commonState o.ui
  { ui := r.1, visible := windowVisibleAfter o.visible r.2 }

/-! ## CreateOverlayUIWindow -/

/-- Outcomes of the system calls that `CreateOverlayUIWindow` inspects. -/
structure WindowEnv where
  /-- Whether `CreateWindowExW` returned a window (not null). -/
  windowCreated : Bool
  /-- The value of `GetSystemMetrics(SM_CXVIRTUALSCREEN)`. -/
  SM_CXVIRTUALSCREEN : Int
  /-- Whether `CreateRectRgn` for the blur region returned a region (not null). -/
  blurRegionCreated : Bool
  /-- The rectangle that `GetWindowRect` fills in, or `none` when the query fails. -/
  GetWindowRect : Option RECT
  /-- Whether `CombineRgn` returned something other than `ERROR`. -/
  regionCombined : Bool

/-- The function `CreateOverlayUIWindow`, after the one-time registration of the
window classes: the calls issued on the new window, or `none` when
`winrt::check_bool(window)` throws because no window was created. -/
def CreateOverlayUIWindow (env : WindowEnv) (commonState : CommonState)
    (monitor : MonitorInfo) (windowClass : WindowClass) (extraParam : Nat) :
    Option (List Call) :=
  let screenArea := monitor.GetScreenSize false
  if !env.windowCreated then none
  else
    let created :=
      [Call.CreateWindowExW windowClass screenArea.left screenArea.top screenArea.width
          screenArea.height extraParam,
        Call.ShowWindow SW_SHOWNORMAL, Call.SetWindowPosTopmost]
    let pos := -env.SM_CXVIRTUALSCREEN - 8
    let blur :=
      if env.blurRegionCreated then
        [Call.DwmEnableBlurBehindWindow (CreateRectRgn pos 0 (pos + 1) 1)]
      else []
    let region :=
      if monitor.IsPrimary then
        match env.GetWindowRect with
        | some windowRect =>
          let windowRegion :=
            CreateRectRgn windowRect.left windowRect.top windowRect.right windowRect.bottom
          let toolbarRegion :=
            CreateRectRgn commonState.toolbarBoundingBox.left commonState.toolbarBoundingBox.top
              commonState.toolbarBoundingBox.right commonState.toolbarBoundingBox.bottom
          if env.regionCombined then
            [Call.SetWindowRgn (HRGN.diff windowRegion toolbarRegion)]
          else []
        | none => []
      else []
    some (created ++ blur ++ region)

/-- The regions given to `SetWindowRgn` by a sequence of calls. -/
def windowRegionsSet : List Call → List HRGN
  | [] => []
  | Call.SetWindowRgn region :: rest => region :: windowRegionsSet rest
  | _ :: rest => windowRegionsSet rest

/-- The overlay as `CreateOverlayUIWindow` and the constructor of
`OverlayUIState` leave it: the window starts hidden (`WS_POPUP` without
`WS_VISIBLE`) and receives the calls of `CreateOverlayUIWindow`;
`_monitorArea` is assigned by `CreateInternal`.  The default member
initializer of `_cursorOnScreen` is in `OverlayUI.h`, which is not among the
sources, so its value is the parameter `cursorOnScreen0`. -/
def Overlay.created (cursorOnScreen0 : Bool) (monitor : MonitorInfo) (calls : List Call) :
    Overlay :=
  { ui := { _monitorArea := monitor.GetScreenSize true, _cursorOnScreen := cursorOnScreen0 },
    visible := windowVisibleAfter false calls }

/-! ## SetClipBoardToText -/

/-- Clipboard and heap calls of `SetClipBoardToText`. -/
inductive ClipCall where
  | OpenClipboard
  | GlobalAlloc (bytes : Nat)
  | GlobalLock
  | copy (count : Nat)
  | GlobalUnlock
  | EmptyClipboard
  | SetClipboardData (format : Nat)
  | CloseClipboard
  | GlobalFree
deriving DecidableEq, Repr

/-- Outcomes of the system calls that `SetClipBoardToText` inspects, and what
the system hands back. -/
structure ClipboardEnv where
  /-- Whether `OpenClipboard` succeeded. -/
  opened : Bool
  /-- Whether `GlobalAlloc` returned a handle (not null). -/
  allocated : Bool
  /-- The wide character found at each index of a block fresh from
  `GlobalAlloc(GMEM_MOVEABLE, ...)`: the flag `GMEM_ZEROINIT` is not passed, so
  the block is not cleared. -/
  fresh : Nat → Nat
  /-- Whether `GlobalLock` returned a pointer (not null). -/
  locked : Bool

/-- The system clipboard: whether this process has it open, and the format
and wide characters of the data it holds. -/
structure Clipboard where
  isOpen : Bool
  data : Option (Nat × List Nat)
deriving DecidableEq, Repr

/-- Size in bytes of `wchar_t` on Windows. -/
def sizeof_wchar_t : Nat := 2

/-- The function `SetClipBoardToText`: the clipboard afterwards and the calls
issued.  It returns `void`.  `handle` is a `wil::unique_hglobal`, which releases a
non-null handle with `GlobalFree` when it goes out of scope. -/
def SetClipBoardToText (env : ClipboardEnv) (text : List Nat) (clipboard : Clipboard) :
    Clipboard × List ClipCall :=
  if !env.opened then
    (clipboard, [ClipCall.OpenClipboard])
  else
    let clipboard1 := { clipboard with isOpen := true }
    let bytes := (text.length + 1) * sizeof_wchar_t
    if !env.allocated then
      ({ clipboard1 with isOpen := false },
        [ClipCall.OpenClipboard, ClipCall.GlobalAlloc bytes, ClipCall.CloseClipboard])
    else
      let block := (List.range (text.length + 1)).map env.fresh
      let filled := if env.locked then text ++ block.drop text.length else block
      let lockCalls :=
        if env.locked then
          [ClipCall.GlobalLock, ClipCall.copy text.length, ClipCall.GlobalUnlock]
        else [ClipCall.GlobalLock]
      ({ isOpen := false, data := some (CF_UNICODETEXT, filled) },
        [ClipCall.OpenClipboard, ClipCall.GlobalAlloc bytes] ++ lockCalls ++
          [ClipCall.EmptyClipboard, ClipCall.SetClipboardData CF_UNICODETEXT,
            ClipCall.CloseClipboard, ClipCall.GlobalFree])

/-- The text the claim expects on the clipboard: the characters of `text`
followed by the NUL terminator, as `CF_UNICODETEXT`. -/
def expectedClipboardData (text : List Nat) : Option (Nat × List Nat) :=
  some (CF_UNICODETEXT, text ++ [0])

/-! ## Window procedures -/

/-- A Direct2D point.  Its coordinates are the `float` images of `LONG`
values (`static_cast<float>`); each is represented by the `LONG` it was
converted from. -/
structure D2D_POINT_2F where
  x : Int
  y : Int
deriving DecidableEq, Repr

/-- The field of `BoundsToolState` that the window procedure reads and writes;
its `commonState` pointer is followed by passing the `CommonState` along. -/
structure BoundsToolState where
  currentRegionStart : Option D2D_POINT_2F
deriving DecidableEq, Repr

/-- What a window procedure leaves behind: the state it works on, the calls
it issued, and its return value, `none` standing for whatever
`DefWindowProcW` returned. -/
structure WndProcResult (σ : Type) where
  state : σ
  calls : List Call
  lresult : Option Int

/-- The bounds-tool window and the tool state behind it.  `windowParam` is the
pointer kept by `StoreWindowParam` and read by `GetWindowParam`, with 0 for the
null pointer; `clientOrigin` is the screen position of the client area, which
`ScreenToClient` subtracts. -/
structure BoundsWindow where
  windowParam : Nat
  clientOrigin : POINT
  toolState : BoundsToolState
deriving DecidableEq, Repr

/-- The measure-tool window.  `windowParam` is the pointer kept by
`StoreWindowParam`, with 0 for the null pointer; `cursorDisplayCount` is the
display counter that `ShowCursor` decrements and returns. -/
structure MeasureWindow where
  windowParam : Nat
  cursorDisplayCount : Int
deriving DecidableEq, Repr

/-- The Windows API function `ScreenToClient`, which converts a screen position to
window-client coordinates by subtracting the screen position of the client
area. -/
def ScreenToClient (clientOrigin : POINT) (p : POINT) : POINT :=
  { x := p.x - clientOrigin.x, y := p.y - clientOrigin.y }

/-- The loop `for (; ShowCursor(false) > 0;);` of `WM_CREATE`: the display counter
after it and the number of `ShowCursor(false)` calls.  `fuel` bounds the
number of further calls; `count.toNat` is enough. -/
def hideCursor : Nat → Int → Int × Nat
  | 0, count => (count - 1, 1)
  | fuel + 1, count =>
    if count - 1 > 0 then
      let r := hideCursor fuel (count - 1)
      (r.1, r.2 + 1)
    else (count - 1, 1)

/-- The measure-tool window procedure.  At `WM_CREATE`, `lparam` stands for the
creation parameter that `GetWindowCreateParam` extracts from it. -/
def measureToolWndProc (commonState : CommonState) (w : MeasureWindow)
    (message wparam lparam : Nat) : WndProcResult MeasureWindow :=
  let byDefault := Call.DefWindowProcW message wparam lparam
  if message = WM_CREATE then
    let hidden := hideCursor w.cursorDisplayCount.toNat w.cursorDisplayCount
    { state := { windowParam := lparam, cursorDisplayCount := hidden.1 },
      calls := List.replicate hidden.2 (Call.ShowCursor false) ++ [byDefault],
      lresult := none }
  else if message = WM_CLOSE then
    { state := w, calls := [Call.DestroyWindow, byDefault], lresult := none }
  else if message = WM_KEYUP then
    if wparam = VK_ESCAPE then
      { state := w, calls := [Call.PostMessageW WM_CLOSE, byDefault], lresult := none }
    else
      { state := w, calls := [byDefault], lresult := none }
  else if message = WM_RBUTTONUP then
    { state := w, calls := [Call.PostMessageW WM_CLOSE, byDefault], lresult := none }
  else if message = WM_LBUTTONUP then
    if w.windowParam ≠ 0 then
      { state := w,
        calls := [Call.SetClipBoardToText commonState.overlayBoxText, byDefault],
        lresult := none }
    else
      { state := w, calls := [byDefault], lresult := none }
  else if message = WM_ERASEBKGND then
    { state := w, calls := [], lresult := some 1 }
  else
    { state := w, calls := [byDefault], lresult := none }

/-- The bounds-tool window procedure; `none` when it dereferences a null
`toolState`.  At `WM_CREATE`, `lparam` stands for the creation parameter that
`GetWindowCreateParam` extracts from it. -/
def boundsToolWndProc (commonState : CommonState) (w : BoundsWindow)
    (message wparam lparam : Nat) : Option (WndProcResult BoundsWindow) :=
  let byDefault := Call.DefWindowProcW message wparam lparam
  if message = WM_CLOSE then
    some { state := w, calls := [Call.DestroyWindow, byDefault], lresult := none }
  else if message = WM_CREATE then
    some { state := { w with windowParam := lparam }, calls := [byDefault], lresult := none }
  else if message = WM_KEYUP then
    if wparam = VK_ESCAPE then
      some { state := w, calls := [Call.PostMessageW WM_CLOSE, byDefault], lresult := none }
    else
      some { state := w, calls := [byDefault], lresult := none }
  else if message = WM_LBUTTONDOWN then
    if w.windowParam = 0 then none
    else
      let cursorPos := ScreenToClient w.clientOrigin commonState.cursorPos
      let newRegionStart : D2D_POINT_2F := { x := cursorPos.x, y := cursorPos.y }
      some { state := { w with toolState := { currentRegionStart := some newRegionStart } },
             calls := [byDefault], lresult := none }
  else if message = WM_USER then
    if w.windowParam = 0 then none
    else
      some { state := { w with toolState := { currentRegionStart := none } },
             calls := [byDefault], lresult := none }
  else if message = WM_LBUTTONUP then
    if w.windowParam = 0 then none
    else if w.toolState.currentRegionStart.isSome then
      some { state := { w with toolState := { currentRegionStart := none } },
             calls := [Call.SetClipBoardToText commonState.overlayBoxText, byDefault],
             lresult := none }
    else
      some { state := w, calls := [byDefault], lresult := none }
  else if message = WM_RBUTTONUP then
    some { state := w, calls := [Call.PostMessageW WM_CLOSE, byDefault], lresult := none }
  else if message = WM_ERASEBKGND then
    some { state := w, calls := [], lresult := some 1 }
  else
    some { state := w, calls := [byDefault], lresult := none }

/-- The calls of a window procedure, none when it did not get to return. -/
def callsOf {σ : Type} : Option (WndProcResult σ) → List Call
  | none => []
  | some r => r.calls

/-- The overlays that can be reached from the created overlay: by passes
through the body of the render loop, and by messages that `run_message_loop`
dispatches to the window procedure of the overlay, whose calls act on the
window. -/
inductive Overlay.Reachable (start : Overlay) : Overlay → Prop where
  | created : Overlay.Reachable start start
  | pass (commonState : CommonState) (o : Overlay) :
      Overlay.Reachable start o → Overlay.Reachable start (Overlay.iteration commonState o)
  | measureToolMessage (commonState : CommonState) (w : MeasureWindow)
      (message wparam lparam : Nat) (o : Overlay) :
      Overlay.Reachable start o →
      Overlay.Reachable start
        { o with
          visible := windowVisibleAfter o.visible
            (measureToolWndProc commonState w message wparam lparam).calls }
  | boundsToolMessage (commonState : CommonState) (w : BoundsWindow)
      (message wparam lparam : Nat) (o : Overlay) :
      Overlay.Reachable start o →
      Overlay.Reachable start
        { o with
          visible := windowVisibleAfter o.visible
            (callsOf (boundsToolWndProc commonState w message wparam lparam)) }

/-! ## OverlayUIState::CreateInternal -/

/-- Where the spawned UI thread stands in the body of the lambda given to
`SpawnLoggedThread`. -/
inductive UiPc where
  /-- Nothing of the lambda has run yet. -/
  | spawned
  /-- After `CreateOverlayUIWindow` returned the window. -/
  | windowCreated
  /-- After `uiState` was assigned the new `OverlayUIState`. -/
  | constructed
  /-- After `uiState->_monitorArea` was assigned. -/
  | monitorAreaSet
  /-- After `uiCreatedEvent.SetEvent()`, inside `uiState->RunUILoop()`. -/
  | inRunUILoop
  /-- After `RunUILoop` returned. -/
  | loopExited
  /-- After `commonState.sessionCompletedCallback()`. -/
  | finished
  /-- After `winrt::check_bool` threw in `CreateOverlayUIWindow`. -/
  | failed
deriving DecidableEq, Repr

/-- A spawned UI thread: its position, whether its window exists, and how
often it has invoked `commonState.sessionCompletedCallback`. -/
structure UiThread where
  pc : UiPc
  windowExists : Bool
  callbackInvocations : Nat
deriving DecidableEq, Repr

/-- One step of the UI thread.  `outcome` is what the system decides in this
step: at `spawned`, whether `CreateWindowExW` returns a window; inside
`RunUILoop`, whether the window is still there after `run_message_loop` (it is
not when `WM_CLOSE` was dispatched and the procedure destroyed it). -/
def UiThread.step (t : UiThread) (outcome : Bool) : UiThread :=
  match t.pc with
  | UiPc.spawned =>
    if outcome then { t with pc := UiPc.windowCreated, windowExists := true }
    else { t with pc := UiPc.failed }
  | UiPc.windowCreated => { t with pc := UiPc.constructed }
  | UiPc.constructed => { t with pc := UiPc.monitorAreaSet }
  | UiPc.monitorAreaSet => { t with pc := UiPc.inRunUILoop }
  | UiPc.inRunUILoop =>
    if t.windowExists then { t with windowExists := outcome }
    else { t with pc := UiPc.loopExited }
  | UiPc.loopExited =>
    { t with pc := UiPc.finished, callbackInvocations := t.callbackInvocations + 1 }
  | UiPc.finished => t
  | UiPc.failed => t

/-- A UI thread that has just been spawned. -/
def UiThread.start : UiThread :=
  { pc := UiPc.spawned, windowExists := false, callbackInvocations := 0 }

/-- Where the constructing thread stands in `CreateInternal` after
`SpawnLoggedThread` returned. -/
inductive MainPc where
  /-- Before `uiState->_uiThread = std::move(threadHandle)`. -/
  | threadSpawned
  /-- After the thread handle was stored, before `uiCreatedEvent.wait()`. -/
  | handleStored
  /-- After `uiCreatedEvent.wait()` returned. -/
  | waited
  /-- After `return uiState`. -/
  | returned
  /-- After `uiState->` was evaluated on a null `uiState`. -/
  | nullDereferenced
deriving DecidableEq, Repr

/-- The two threads of one `CreateInternal` call and what they share:
whether the `unique_ptr` `uiState` holds an object and whether
`uiCreatedEvent` is set. -/
structure CreateInternalState where
  main : MainPc
  ui : UiThread
  uiState : Bool
  uiCreatedEvent : Bool
deriving DecidableEq, Repr

/-- The thread that takes the next step, with the outcome of the system for a
step of the UI thread. -/
inductive Turn where
  | main
  | ui (outcome : Bool)
deriving DecidableEq, Repr

/-- One step of `CreateInternal` by the thread whose turn it is.  The
constructing thread stays where it is while `uiCreatedEvent.wait()` blocks. -/
def CreateInternal.step (s : CreateInternalState) : Turn → CreateInternalState
  | Turn.ui outcome =>
    { s with
      ui := s.ui.step outcome
      uiState := s.uiState || decide (s.ui.pc = UiPc.windowCreated)
      uiCreatedEvent := s.uiCreatedEvent || decide (s.ui.pc = UiPc.monitorAreaSet) }
  | Turn.main =>
    match s.main with
    | MainPc.threadSpawned =>
      if s.uiState then { s with main := MainPc.handleStored }
      else { s with main := MainPc.nullDereferenced }
    | MainPc.handleStored =>
      if s.uiCreatedEvent then { s with main := MainPc.waited } else s
    | MainPc.waited => { s with main := MainPc.returned }
    | MainPc.returned => s
    | MainPc.nullDereferenced => s

/-- The state of `CreateInternal` right after `SpawnLoggedThread` returned. -/
def CreateInternal.start : CreateInternalState :=
  { main := MainPc.threadSpawned, ui := UiThread.start, uiState := false,
    uiCreatedEvent := false }

/-- The steps of `CreateInternal` along an interleaving. -/
def CreateInternal.run : List Turn → CreateInternalState → CreateInternalState
  | [], s => s
  | turn :: rest, s => CreateInternal.run rest (CreateInternal.step s turn)

/-! ## Several overlays over one CommonState -/

/-- One step of the UI thread with index `i` among the UI threads of a
session; an index beyond the threads changes nothing. -/
def Session.step : List UiThread → Nat → Bool → List UiThread
  | [], _, _ => []
  | t :: rest, 0, outcome => t.step outcome :: rest
  | t :: rest, i + 1, outcome => t :: Session.step rest i outcome

/-- The UI threads of `K` overlays created over the same `CommonState`. -/
def Session.start (K : Nat) : List UiThread :=
  List.replicate K UiThread.start

/-- The steps of the UI threads along an interleaving, each entry naming the
thread that steps and the outcome of the system. -/
def Session.run : List (Nat × Bool) → List UiThread → List UiThread
  | [], threads => threads
  | turn :: rest, threads => Session.run rest (Session.step threads turn.1 turn.2)

/-- How often `sessionCompletedCallback` of the shared `CommonState` has been
invoked, by all UI threads together. -/
def Session.callbackInvocations (threads : List UiThread) : Nat :=
  (threads.map fun t => t.callbackInvocations).sum

/-- Whether every UI thread has run to the end of its lambda. -/
def Session.allFinished (threads : List UiThread) : Bool :=
  threads.all fun t => decide (t.pc = UiPc.finished)

/-! ## Quantities the claims speak of -/

/-- How often a sequence of calls invokes the tick callback. -/
def tickInvocations (calls : List Call) : Nat :=
  calls.count Call.tickFunc

/-- How often a sequence of calls shows or hides the window. -/
def showOrHideCalls : List Call → Nat
  | [] => 0
  | Call.ShowWindow _ :: rest => showOrHideCalls rest + 1
  | _ :: rest => showOrHideCalls rest

/-- How often a sequence of calls posts the monitor-changed signal `WM_USER`. -/
def monitorChangedSignals (calls : List Call) : Nat :=
  calls.count (Call.PostMessageW WM_USER)

/-- The `PostMessageW` and `ShowWindow` calls of a sequence of calls, in order. -/
def signalCalls : List Call → List Call
  | [] => []
  | Call.PostMessageW message :: rest => Call.PostMessageW message :: signalCalls rest
  | Call.ShowWindow nCmdShow :: rest => Call.ShowWindow nCmdShow :: signalCalls rest
  | _ :: rest => signalCalls rest

/-- How often the on-screen status changes along a sequence of statuses,
counted from the status `cached` before the first. -/
def statusChanges : Bool → List Bool → Nat
  | _, [] => 0
  | cached, status :: rest =>
    (if status = cached then 0 else 1) + statusChanges status rest

/-- One monitor-changed signal and one show or hide matching the new status for
every change of the on-screen status, and nothing else. -/
def expectedSignals : Bool → List Bool → List Call
  | _, [] => []
  | cached, status :: rest =>
    (if status = cached then []
      else [Call.PostMessageW WM_USER, Call.ShowWindow (if status then SW_SHOW else SW_HIDE)]) ++
      expectedSignals status rest

/-- The invariant of a UI thread: it has invoked the callback once when it is
finished and never before. -/
def UiThread.Invariant (t : UiThread) : Prop :=
  t.callbackInvocations = if t.pc = UiPc.finished then 1 else 0

/-- What holds of `CreateInternal` along every interleaving: the event is set
only after `uiState` was assigned and the UI thread went on to the loop,
`uiState` is assigned exactly from the construction after the window was
created, and the
constructing thread gets past `uiCreatedEvent.wait()` only with the event set. -/
def CreateInternalState.Invariant (s : CreateInternalState) : Prop :=
  (s.uiCreatedEvent = true →
      s.uiState = true ∧
        (s.ui.pc = UiPc.inRunUILoop ∨ s.ui.pc = UiPc.loopExited ∨ s.ui.pc = UiPc.finished)) ∧
    (s.uiState = true ↔
      s.ui.pc ≠ UiPc.spawned ∧ s.ui.pc ≠ UiPc.failed ∧ s.ui.pc ≠ UiPc.windowCreated) ∧
    (s.main = MainPc.waited ∨ s.main = MainPc.returned → s.uiCreatedEvent = true)

/-! ## Concrete inputs -/

/-- A monitor of 100 by 100 pixels at the origin, the primary one. -/
def sampleMonitor : MonitorInfo :=
  { GetScreenSize := fun _ => { rect := { left := 0, top := 0, right := 100, bottom := 100 } },
    IsPrimary := true }

/-- A shared state with the cursor at (5, 5), inside a toolbar of 10 by 10
pixels at the origin, and the overlay text "12". -/
def sampleCommonState : CommonState :=
  { cursorPos := { x := 5, y := 5 },
    toolbarBoundingBox := { rect := { left := 0, top := 0, right := 10, bottom := 10 } },
    overlayBoxText := [49, 50] }

/-- The same shared state with the cursor at (150, 50), off the first monitor. -/
def sampleCommonStateOffScreen : CommonState :=
  { sampleCommonState with cursorPos := { x := 150, y := 50 } }

/-- A system in which every call of `CreateOverlayUIWindow` succeeds. -/
def sampleWindowEnv : WindowEnv :=
  { windowCreated := true, SM_CXVIRTUALSCREEN := 200, blurRegionCreated := true,
    GetWindowRect := some { left := 0, top := 0, right := 100, bottom := 100 },
    regionCombined := true }

/-- A system in which the clipboard opens and the block is allocated and
locked, the fresh block holding the wide character 0xCDCD at every index. -/
def sampleClipboardEnv : ClipboardEnv :=
  { opened := true, allocated := true, fresh := fun _ => 0xCDCD, locked := true }

/-- A system in which the clipboard opens and the allocation fails. -/
def sampleClipboardEnvNoMemory : ClipboardEnv :=
  { opened := true, allocated := false, fresh := fun _ => 0, locked := false }

/-- A closed clipboard holding the text "old". -/
def sampleClipboard : Clipboard :=
  { isOpen := false, data := some (CF_UNICODETEXT, [111, 108, 100, 0]) }

/-- The steps that take one UI thread, with index `i`, from start to finish: the
window is created, the state constructed, the monitor area stored, the event
set, one pass through the loop during which the window is destroyed, the loop
test that fails, and the callback. -/
def sampleThreadSchedule (i : Nat) : List (Nat × Bool) :=
  [(i, true), (i, true), (i, true), (i, true), (i, false), (i, false), (i, false)]

/-! ## Lemmas on the render loop -/

theorem iteration_monitorArea (commonState : CommonState) (s : OverlayUIState) :
    (RunUILoop.iteration commonState s).1._monitorArea = s._monitorArea := by
  unfold RunUILoop.iteration
  simp only []
  split <;> rfl

theorem iteration_cursorOnScreen (commonState : CommonState) (s : OverlayUIState) :
    (RunUILoop.iteration commonState s).1._cursorOnScreen =
      s._monitorArea.inside commonState.cursorPos := by
  unfold RunUILoop.iteration
  cases h2 : s._monitorArea.inside commonState.cursorPos <;>
    cases h3 : s._cursorOnScreen <;> simp [h2, h3]

theorem iteration_signalCalls (commonState : CommonState) (s : OverlayUIState) :
    signalCalls (RunUILoop.iteration commonState s).2 =
      (if s._monitorArea.inside commonState.cursorPos = s._cursorOnScreen then []
        else [Call.PostMessageW WM_USER,
          Call.ShowWindow
            (if s._monitorArea.inside commonState.cursorPos then SW_SHOW else SW_HIDE)]) := by
  unfold RunUILoop.iteration
  cases h1 : commonState.toolbarBoundingBox.inside commonState.cursorPos <;>
    cases h2 : s._monitorArea.inside commonState.cursorPos <;>
    cases h3 : s._cursorOnScreen <;> simp [h1, h2, h3, signalCalls]

theorem signalCalls_append (a b : List Call) :
    signalCalls (a ++ b) = signalCalls a ++ signalCalls b := by
  induction a with
  | nil => rfl
  | cons c rest ih => cases c <;> simp [signalCalls, ih]

theorem showOrHideCalls_signalCalls (calls : List Call) :
    showOrHideCalls (signalCalls calls) = showOrHideCalls calls := by
  induction calls with
  | nil => rfl
  | cons c rest ih => cases c <;> simp [signalCalls, showOrHideCalls, ih]

theorem monitorChangedSignals_signalCalls (calls : List Call) :
    monitorChangedSignals (signalCalls calls) = monitorChangedSignals calls := by
  induction calls with
  | nil => rfl
  | cons c rest ih =>
    cases c <;> simp_all [signalCalls, monitorChangedSignals, List.count_cons]

theorem showOrHideCalls_expectedSignals (cached : Bool) (statuses : List Bool) :
    showOrHideCalls (expectedSignals cached statuses) = statusChanges cached statuses := by
  induction statuses generalizing cached with
  | nil => rfl
  | cons status rest ih =>
    by_cases h : status = cached
    · simp [expectedSignals, statusChanges, h, ih]
    · simp [expectedSignals, statusChanges, h, ih, showOrHideCalls, Nat.add_comm]

theorem monitorChangedSignals_expectedSignals (cached : Bool) (statuses : List Bool) :
    monitorChangedSignals (expectedSignals cached statuses) =
      statusChanges cached statuses := by
  induction statuses generalizing cached with
  | nil => rfl
  | cons status rest ih =>
    have ih2 := ih status
    unfold monitorChangedSignals at ih2 ⊢
    by_cases h : status = cached
    · subst h
      simp [expectedSignals, statusChanges, ih2]
    · simp [expectedSignals, statusChanges, h, ih2, List.count_cons, Nat.add_comm]

theorem iterations_signalCalls (snapshots : List CommonState) (s : OverlayUIState) :
    signalCalls (RunUILoop.iterations snapshots s).2 =
      expectedSignals s._cursorOnScreen
        (snapshots.map fun commonState => s._monitorArea.inside commonState.cursorPos) := by
  induction snapshots generalizing s with
  | nil => rfl
  | cons commonState rest ih =>
    simp only [RunUILoop.iterations, List.map_cons, expectedSignals, signalCalls_append]
    rw [iteration_signalCalls, ih, iteration_monitorArea, iteration_cursorOnScreen]

theorem iteration_tickInvocations (commonState : CommonState) (s : OverlayUIState) :
    tickInvocations (RunUILoop.iteration commonState s).2 =
      (if s._monitorArea.inside commonState.cursorPos = true ∧
          commonState.toolbarBoundingBox.inside commonState.cursorPos = false then 1 else 0) := by
  unfold RunUILoop.iteration tickInvocations
  cases h1 : commonState.toolbarBoundingBox.inside commonState.cursorPos <;>
    cases h2 : s._monitorArea.inside commonState.cursorPos <;>
    cases h3 : s._cursorOnScreen <;> simp [h1, h2, h3, List.count_cons]

theorem iteration_visible (commonState : CommonState) (s : OverlayUIState) (visible : Bool) :
    windowVisibleAfter visible (RunUILoop.iteration commonState s).2 =
      (if s._monitorArea.inside commonState.cursorPos = s._cursorOnScreen then visible
        else s._monitorArea.inside commonState.cursorPos) := by
  unfold RunUILoop.iteration
  cases h1 : commonState.toolbarBoundingBox.inside commonState.cursorPos <;>
    cases h2 : s._monitorArea.inside commonState.cursorPos <;>
    cases h3 : s._cursorOnScreen <;>
    simp [h1, h2, h3, windowVisibleAfter, SW_SHOW, SW_HIDE]

theorem windowVisibleAfter_append (visible : Bool) (a b : List Call) :
    windowVisibleAfter visible (a ++ b) =
      windowVisibleAfter (windowVisibleAfter visible a) b := by
  induction a generalizing visible with
  | nil => rfl
  | cons c rest ih => cases c <;> simp [windowVisibleAfter, ih]

theorem CreateOverlayUIWindow_visible (env : WindowEnv) (commonState : CommonState)
    (monitor : MonitorInfo) (windowClass : WindowClass) (extraParam : Nat)
    (calls : List Call)
    (hcreated : CreateOverlayUIWindow env commonState monitor windowClass extraParam =
      some calls) :
    windowVisibleAfter false calls = true := by
  unfold CreateOverlayUIWindow at hcreated
  cases hw : env.windowCreated
  · simp [hw] at hcreated
  · simp only [hw, Bool.not_true, Bool.false_eq_true, if_false, Option.some.injEq] at hcreated
    subst hcreated
    cases env.blurRegionCreated <;> cases monitor.IsPrimary <;>
      cases env.GetWindowRect <;> cases env.regionCombined <;>
      simp [windowVisibleAfter, SW_SHOWNORMAL, SW_HIDE]

theorem windowVisibleAfter_of_no_ShowWindow (visible : Bool) (calls : List Call)
    (h : ∀ nCmdShow, Call.ShowWindow nCmdShow ∉ calls) :
    windowVisibleAfter visible calls = visible := by
  induction calls with
  | nil => rfl
  | cons c rest ih =>
    have hrest : ∀ nCmdShow, Call.ShowWindow nCmdShow ∉ rest :=
      fun n hn => h n (List.mem_cons_of_mem _ hn)
    cases c with
    | ShowWindow n => exact absurd (List.mem_cons_self _ _) (h n)
    | _ => simpa [windowVisibleAfter] using ih hrest

theorem measureToolWndProc_no_ShowWindow (commonState : CommonState) (w : MeasureWindow)
    (message wparam lparam nCmdShow : Nat) :
    Call.ShowWindow nCmdShow ∉ (measureToolWndProc commonState w message wparam lparam).calls := by
  unfold measureToolWndProc
  simp only []
  split_ifs <;> simp

theorem boundsToolWndProc_no_ShowWindow (commonState : CommonState) (w : BoundsWindow)
    (message wparam lparam nCmdShow : Nat) :
    Call.ShowWindow nCmdShow ∉
      callsOf (boundsToolWndProc commonState w message wparam lparam) := by
  unfold boundsToolWndProc
  simp only []
  split_ifs <;> simp [callsOf]

theorem reachable_invariant (start o : Overlay) (hstart : start.visible = start.ui._cursorOnScreen)
    (hreach : Overlay.Reachable start o) :
    o.visible = o.ui._cursorOnScreen ∧ o.ui._monitorArea = start.ui._monitorArea := by
  induction hreach with
  | created => exact ⟨hstart, rfl⟩
  | pass commonState o _ ih =>
    obtain ⟨hv, hm⟩ := ih
    refine ⟨?_, ?_⟩
    · simp only [Overlay.iteration, iteration_visible, iteration_cursorOnScreen]
      by_cases h : o.ui._monitorArea.inside commonState.cursorPos = o.ui._cursorOnScreen
      · simp [h, hv]
      · simp [h]
    · simp only [Overlay.iteration, iteration_monitorArea, hm]
  | measureToolMessage commonState w message wparam lparam o _ ih =>
    obtain ⟨hv, hm⟩ := ih
    refine ⟨?_, hm⟩
    simp only []
    rw [windowVisibleAfter_of_no_ShowWindow _ _
      (measureToolWndProc_no_ShowWindow commonState w message wparam lparam), hv]
  | boundsToolMessage commonState w message wparam lparam o _ ih =>
    obtain ⟨hv, hm⟩ := ih
    refine ⟨?_, hm⟩
    simp only []
    rw [windowVisibleAfter_of_no_ShowWindow _ _
      (boundsToolWndProc_no_ShowWindow commonState w message wparam lparam), hv]

/-! ## The render loop: claims C1, C3 -/

/-- Claim C1: in one pass through the body of `RunUILoop` that reads the cursor
position P, the tick callback is invoked exactly once when P is inside
`_monitorArea` and not inside the toolbar rectangle, and not at all otherwise;
in particular it is not invoked when P is inside the toolbar rectangle,
wherever P lies with respect to the monitor rectangle. -/
theorem RunUILoop_tick_iff_on_screen_off_toolbar (commonState : CommonState)
    (s : OverlayUIState) :
    tickInvocations (RunUILoop.iteration commonState s).2 =
        (if s._monitorArea.inside commonState.cursorPos = true ∧
            commonState.toolbarBoundingBox.inside commonState.cursorPos = false then 1 else 0) ∧
      (commonState.toolbarBoundingBox.inside commonState.cursorPos = true →
        tickInvocations (RunUILoop.iteration commonState s).2 = 0) := by
  refine ⟨iteration_tickInvocations commonState s, ?_⟩
  intro h
  rw [iteration_tickInvocations]
  simp [h]

/-- Witness of claim C1: the cursor at (5, 5) is inside both the toolbar
rectangle and the monitor rectangle, and the pass does not tick. -/
theorem RunUILoop_tick_iff_on_screen_off_toolbar_witness :
    tickInvocations
      (RunUILoop.iteration
        { cursorPos := { x := 5, y := 5 },
          toolbarBoundingBox := { rect := { left := 0, top := 0, right := 10, bottom := 10 } },
          overlayBoxText := [] }
        { _monitorArea := { rect := { left := 0, top := 0, right := 100, bottom := 100 } },
          _cursorOnScreen := true }).2 = 0 :=
  (RunUILoop_tick_iff_on_screen_off_toolbar
    { cursorPos := { x := 5, y := 5 },
      toolbarBoundingBox := { rect := { left := 0, top := 0, right := 10, bottom := 10 } },
      overlayBoxText := [] }
    { _monitorArea := { rect := { left := 0, top := 0, right := 100, bottom := 100 } },
      _cursorOnScreen := true }).2 (by decide)

/-- Claim C3: along any sequence of snapshots read by successive passes of
`RunUILoop`, the `PostMessageW` and `ShowWindow` calls of the loop are exactly
one `WM_USER` post followed by one show or hide matching the new status for
every change of the on-screen status, counted from the cached status; so
there are exactly N show-or-hide calls and N `WM_USER` posts for N changes,
and a pass in which the status did not change issues neither. -/
theorem RunUILoop_signals_match_status_changes (snapshots : List CommonState)
    (s : OverlayUIState) :
    signalCalls (RunUILoop.iterations snapshots s).2 =
        expectedSignals s._cursorOnScreen
          (snapshots.map fun commonState => s._monitorArea.inside commonState.cursorPos) ∧
      showOrHideCalls (RunUILoop.iterations snapshots s).2 =
        statusChanges s._cursorOnScreen
          (snapshots.map fun commonState => s._monitorArea.inside commonState.cursorPos) ∧
      monitorChangedSignals (RunUILoop.iterations snapshots s).2 =
        statusChanges s._cursorOnScreen
          (snapshots.map fun commonState => s._monitorArea.inside commonState.cursorPos) ∧
      ∀ commonState : CommonState,
        signalCalls (RunUILoop.iteration commonState s).2 =
          (if s._monitorArea.inside commonState.cursorPos = s._cursorOnScreen then []
            else [Call.PostMessageW WM_USER,
              Call.ShowWindow
                (if s._monitorArea.inside commonState.cursorPos then SW_SHOW else SW_HIDE)]) := by
  refine ⟨iterations_signalCalls snapshots s, ?_, ?_, fun commonState =>
    iteration_signalCalls commonState s⟩
  · rw [← showOrHideCalls_signalCalls, iterations_signalCalls,
      showOrHideCalls_expectedSignals]
  · rw [← monitorChangedSignals_signalCalls, iterations_signalCalls,
      monitorChangedSignals_expectedSignals]

/-! ## Visibility of the window and the cached on-screen flag

The default member initializer of `_cursorOnScreen` is in `OverlayUI.h`, which
is not among the sources.  The lemmas below hold for whatever value the flag
starts with, or say for which value they hold. -/

/-- A pass that starts with the window shown exactly when the cached flag is
set leaves the window shown exactly when the cursor is inside `_monitorArea`. -/
theorem pass_visible_of_flag_agrees (o : Overlay) (commonState : CommonState)
    (h : o.visible = o.ui._cursorOnScreen) :
    (Overlay.iteration commonState o).visible =
      o.ui._monitorArea.inside commonState.cursorPos := by
  simp only [Overlay.iteration, iteration_visible]
  by_cases hc : o.ui._monitorArea.inside commonState.cursorPos = o.ui._cursorOnScreen
  · simp [hc, h]
  · simp [hc]

theorem reachable_shown_or_agrees (start o : Overlay) (hstart : start.visible = true)
    (hreach : Overlay.Reachable start o) :
    o.visible = o.ui._cursorOnScreen ∨ (o.visible = true ∧ o.ui._cursorOnScreen = false) := by
  induction hreach with
  | created =>
    cases hc : start.ui._cursorOnScreen
    · exact Or.inr ⟨hstart, rfl⟩
    · exact Or.inl hstart
  | pass commonState o _ ih =>
    simp only [Overlay.iteration, iteration_visible, iteration_cursorOnScreen]
    rcases ih with hv | ⟨hv, hc⟩
    · by_cases h : o.ui._monitorArea.inside commonState.cursorPos = o.ui._cursorOnScreen
      · simp [h, hv]
      · simp [h]
    · cases h : o.ui._monitorArea.inside commonState.cursorPos <;> simp [h, hv, hc]
  | measureToolMessage commonState w message wparam lparam o _ ih =>
    simp only []
    rw [windowVisibleAfter_of_no_ShowWindow _ _
      (measureToolWndProc_no_ShowWindow commonState w message wparam lparam)]
    exact ih
  | boundsToolMessage commonState w message wparam lparam o _ ih =>
    simp only []
    rw [windowVisibleAfter_of_no_ShowWindow _ _
      (boundsToolWndProc_no_ShowWindow commonState w message wparam lparam)]
    exact ih

/-- Whatever value the cached flag starts with: from the overlay as
`CreateOverlayUIWindow` leaves it, a pass that reads a cursor position inside
`_monitorArea` leaves the window shown. -/
theorem pass_shows_window_when_cursor_on_screen (env : WindowEnv)
    (commonState0 : CommonState) (monitor : MonitorInfo) (windowClass : WindowClass)
    (extraParam : Nat) (calls : List Call)
    (hcreated : CreateOverlayUIWindow env commonState0 monitor windowClass extraParam =
      some calls)
    (cursorOnScreen0 : Bool) (o : Overlay)
    (hreach : Overlay.Reachable (Overlay.created cursorOnScreen0 monitor calls) o)
    (commonState : CommonState)
    (hinside : o.ui._monitorArea.inside commonState.cursorPos = true) :
    (Overlay.iteration commonState o).visible = true := by
  have hstart : (Overlay.created cursorOnScreen0 monitor calls).visible = true := by
    simp [Overlay.created, CreateOverlayUIWindow_visible env commonState0 monitor windowClass
      extraParam calls hcreated]
  simp only [Overlay.iteration, iteration_visible, hinside]
  rcases reachable_shown_or_agrees _ o hstart hreach with hv | ⟨hv, hc⟩
  · by_cases h : true = o.ui._cursorOnScreen
    · simp [← h, hv]
    · simp [h]
  · simp [hc]

/-- When the cached flag starts as `false`, a first pass with the cursor off the
monitor finds no change and leaves the window shown. -/
theorem created_with_flag_false_stays_shown :
    (Overlay.iteration sampleCommonStateOffScreen
      (Overlay.created false sampleMonitor [Call.ShowWindow SW_SHOWNORMAL])).visible = true ∧
      (sampleMonitor.GetScreenSize true).inside sampleCommonStateOffScreen.cursorPos = false := by
  decide

/-- When the cached flag starts as `true`, the same pass hides the window. -/
theorem created_with_flag_true_is_hidden :
    (Overlay.iteration sampleCommonStateOffScreen
      (Overlay.created true sampleMonitor [Call.ShowWindow SW_SHOWNORMAL])).visible = false := by
  decide

/-! ## The window procedures: claims C4, C10 -/

theorem measureToolWndProc_posts_close (commonState : CommonState) (w : MeasureWindow)
    (message wparam lparam : Nat) :
    Call.PostMessageW WM_CLOSE ∈ (measureToolWndProc commonState w message wparam lparam).calls ↔
      (message = WM_KEYUP ∧ wparam = VK_ESCAPE) ∨ message = WM_RBUTTONUP := by
  unfold measureToolWndProc
  simp only []
  split_ifs <;>
    simp_all [WM_CREATE, WM_CLOSE, WM_KEYUP, WM_RBUTTONUP, WM_LBUTTONUP, WM_ERASEBKGND,
      VK_ESCAPE]

theorem measureToolWndProc_destroys (commonState : CommonState) (w : MeasureWindow)
    (message wparam lparam : Nat) :
    Call.DestroyWindow ∈ (measureToolWndProc commonState w message wparam lparam).calls ↔
      message = WM_CLOSE := by
  unfold measureToolWndProc
  simp only []
  split_ifs <;>
    simp_all [WM_CREATE, WM_CLOSE, WM_KEYUP, WM_RBUTTONUP, WM_LBUTTONUP, WM_ERASEBKGND,
      VK_ESCAPE]

theorem boundsToolWndProc_posts_close (commonState : CommonState) (w : BoundsWindow)
    (message wparam lparam : Nat) :
    Call.PostMessageW WM_CLOSE ∈
        callsOf (boundsToolWndProc commonState w message wparam lparam) ↔
      (message = WM_KEYUP ∧ wparam = VK_ESCAPE) ∨ message = WM_RBUTTONUP := by
  unfold boundsToolWndProc
  simp only []
  split_ifs <;>
    simp_all [callsOf, WM_CREATE, WM_CLOSE, WM_KEYUP, WM_RBUTTONUP, WM_LBUTTONUP,
      WM_LBUTTONDOWN, WM_USER, WM_ERASEBKGND, VK_ESCAPE]

theorem boundsToolWndProc_destroys (commonState : CommonState) (w : BoundsWindow)
    (message wparam lparam : Nat) :
    Call.DestroyWindow ∈ callsOf (boundsToolWndProc commonState w message wparam lparam) ↔
      message = WM_CLOSE := by
  unfold boundsToolWndProc
  simp only []
  split_ifs <;>
    simp_all [callsOf, WM_CREATE, WM_CLOSE, WM_KEYUP, WM_RBUTTONUP, WM_LBUTTONUP,
      WM_LBUTTONDOWN, WM_USER, WM_ERASEBKGND, VK_ESCAPE]

/-- Claim C10: for the measure-tool and the bounds-tool window procedure alike, a
key release posts `WM_CLOSE` exactly when the key is Escape, a right-button
release always posts `WM_CLOSE`, and `WM_CLOSE` destroys the window; over all
messages, `WM_CLOSE` is posted only by those two and the window is destroyed
only on `WM_CLOSE`, so no other message does either. -/
theorem wndProcs_close_on_escape_or_right_button (commonState : CommonState)
    (mw : MeasureWindow) (bw : BoundsWindow) (message wparam lparam : Nat) :
    ((Call.PostMessageW WM_CLOSE ∈
          (measureToolWndProc commonState mw WM_KEYUP wparam lparam).calls ↔
        wparam = VK_ESCAPE) ∧
      Call.PostMessageW WM_CLOSE ∈
        (measureToolWndProc commonState mw WM_RBUTTONUP wparam lparam).calls ∧
      Call.DestroyWindow ∈ (measureToolWndProc commonState mw WM_CLOSE wparam lparam).calls ∧
      (Call.PostMessageW WM_CLOSE ∈
          (measureToolWndProc commonState mw message wparam lparam).calls ↔
        (message = WM_KEYUP ∧ wparam = VK_ESCAPE) ∨ message = WM_RBUTTONUP) ∧
      (Call.DestroyWindow ∈ (measureToolWndProc commonState mw message wparam lparam).calls ↔
        message = WM_CLOSE)) ∧
    ((Call.PostMessageW WM_CLOSE ∈
          callsOf (boundsToolWndProc commonState bw WM_KEYUP wparam lparam) ↔
        wparam = VK_ESCAPE) ∧
      Call.PostMessageW WM_CLOSE ∈
        callsOf (boundsToolWndProc commonState bw WM_RBUTTONUP wparam lparam) ∧
      Call.DestroyWindow ∈ callsOf (boundsToolWndProc commonState bw WM_CLOSE wparam lparam) ∧
      (Call.PostMessageW WM_CLOSE ∈
          callsOf (boundsToolWndProc commonState bw message wparam lparam) ↔
        (message = WM_KEYUP ∧ wparam = VK_ESCAPE) ∨ message = WM_RBUTTONUP) ∧
      (Call.DestroyWindow ∈ callsOf (boundsToolWndProc commonState bw message wparam lparam) ↔
        message = WM_CLOSE)) := by
  refine ⟨⟨?_, ?_, ?_, measureToolWndProc_posts_close _ _ _ _ _,
    measureToolWndProc_destroys _ _ _ _ _⟩, ⟨?_, ?_, ?_, boundsToolWndProc_posts_close _ _ _ _ _,
    boundsToolWndProc_destroys _ _ _ _ _⟩⟩
  · rw [measureToolWndProc_posts_close]
    simp [WM_KEYUP, WM_RBUTTONUP]
  · rw [measureToolWndProc_posts_close]
    simp
  · rw [measureToolWndProc_destroys]
  · rw [boundsToolWndProc_posts_close]
    simp [WM_KEYUP, WM_RBUTTONUP]
  · rw [boundsToolWndProc_posts_close]
    simp
  · rw [boundsToolWndProc_destroys]

/-! ## The window factory: claim C9 -/

theorem windowRegionsSet_append (a b : List Call) :
    windowRegionsSet (a ++ b) = windowRegionsSet a ++ windowRegionsSet b := by
  induction a with
  | nil => rfl
  | cons c rest ih => cases c <;> simp [windowRegionsSet, ih]

/-- Claim C9: when the monitor is primary and the window rectangle query and the
region combination succeed, `CreateOverlayUIWindow` sets one window region,
holding exactly the points of the window rectangle that are not in the toolbar
bounding box of `CommonState`; when the monitor is not primary it sets no
window region. -/
theorem CreateOverlayUIWindow_region_excludes_toolbar_on_primary (env : WindowEnv)
    (commonState : CommonState) (monitor : MonitorInfo) (windowClass : WindowClass)
    (extraParam : Nat) (hwindow : env.windowCreated = true) :
    (∀ windowRect, monitor.IsPrimary = true → env.GetWindowRect = some windowRect →
        env.regionCombined = true →
        ∃ calls region,
          CreateOverlayUIWindow env commonState monitor windowClass extraParam = some calls ∧
            windowRegionsSet calls = [region] ∧
            ∀ p, region.contains p =
              (PtInRect windowRect p && !commonState.toolbarBoundingBox.inside p)) ∧
      (monitor.IsPrimary = false →
        ∃ calls,
          CreateOverlayUIWindow env commonState monitor windowClass extraParam = some calls ∧
            windowRegionsSet calls = []) := by
  constructor
  · intro windowRect hprimary hrect hcombined
    refine ⟨_,
      HRGN.diff
        (CreateRectRgn windowRect.left windowRect.top windowRect.right windowRect.bottom)
        (CreateRectRgn commonState.toolbarBoundingBox.left commonState.toolbarBoundingBox.top
          commonState.toolbarBoundingBox.right commonState.toolbarBoundingBox.bottom),
      by simp only [CreateOverlayUIWindow, hwindow, hprimary, hrect, hcombined,
        Bool.not_true, Bool.false_eq_true, if_false, if_true]; rfl, ?_, ?_⟩
    · cases env.blurRegionCreated <;> simp [windowRegionsSet]
    · intro p
      simp [HRGN.contains, CreateRectRgn, Box.inside, Box.left, Box.top, Box.right, Box.bottom]
  · intro hprimary
    refine ⟨_, by simp only [CreateOverlayUIWindow, hwindow, hprimary,
      Bool.not_true, Bool.false_eq_true, if_false, if_true]; rfl, ?_⟩
    cases env.blurRegionCreated <;> simp [windowRegionsSet]

/-- Witness of claim C9: on the sample primary monitor the window region is the
window rectangle without the toolbar rectangle. -/
theorem CreateOverlayUIWindow_region_excludes_toolbar_on_primary_witness :
    sampleWindowEnv.windowCreated = true ∧
      ∃ calls region,
        CreateOverlayUIWindow sampleWindowEnv sampleCommonState sampleMonitor
            WindowClass.MeasureToolOverlayWindowName 1 = some calls ∧
          windowRegionsSet calls = [region] ∧
          ∀ p, region.contains p =
            (PtInRect { left := 0, top := 0, right := 100, bottom := 100 } p &&
              !sampleCommonState.toolbarBoundingBox.inside p) :=
  ⟨rfl,
    (CreateOverlayUIWindow_region_excludes_toolbar_on_primary sampleWindowEnv sampleCommonState
      sampleMonitor WindowClass.MeasureToolOverlayWindowName 1 rfl).1
      { left := 0, top := 0, right := 100, bottom := 100 } rfl rfl rfl⟩

/-! ## The clipboard sink: claims C6, C7 -/

theorem fresh_block_drop (fresh : Nat → Nat) (n : Nat) :
    ((List.range (n + 1)).map fresh).drop n = [fresh n] := by
  rw [List.range_succ, List.map_append]
  rw [List.drop_append_of_le_length (by simp)]
  simp [List.drop_eq_nil_of_le]

/-- What `SetClipBoardToText` puts on the clipboard when every call succeeds:
the characters of the text followed by whatever the fresh block held at the
last index. -/
theorem SetClipBoardToText_data (env : ClipboardEnv) (text : List Nat) (clipboard : Clipboard)
    (hopened : env.opened = true) (hallocated : env.allocated = true)
    (hlocked : env.locked = true) :
    (SetClipBoardToText env text clipboard).1.data =
      some (CF_UNICODETEXT, text ++ [env.fresh text.length]) := by
  simp [SetClipBoardToText, hopened, hallocated, hlocked, fresh_block_drop]

/-- Claim C6, at the text "A" with a fresh block that is not zero: the clipboard
is opened, the block allocated and locked, and `SetClipBoardToText` leaves two
wide characters on the clipboard, the second being what the fresh block held
(0xCDCD) and not the NUL terminator. -/
theorem SetClipBoardToText_terminator_not_written :
    (SetClipBoardToText sampleClipboardEnv [65] sampleClipboard).1.data =
        some (CF_UNICODETEXT, [65, 0xCDCD]) ∧
      (SetClipBoardToText sampleClipboardEnv [65] sampleClipboard).1.data ≠
        expectedClipboardData [65] := by
  decide

/-- Claim C7: when the clipboard cannot be opened, `SetClipBoardToText` makes no
call after the failed `OpenClipboard` and leaves the clipboard as it was; when
the buffer cannot be allocated, the clipboard data is left as it was, neither
`EmptyClipboard` nor `SetClipboardData` is called, and the clipboard is closed
again.  In both cases the function returns normally. -/
theorem SetClipBoardToText_no_effect_on_failure (env : ClipboardEnv) (text : List Nat)
    (clipboard : Clipboard) :
    (env.opened = false →
        SetClipBoardToText env text clipboard = (clipboard, [ClipCall.OpenClipboard])) ∧
      (env.opened = true → env.allocated = false →
        (SetClipBoardToText env text clipboard).1.data = clipboard.data ∧
          (SetClipBoardToText env text clipboard).1.isOpen = false ∧
          (SetClipBoardToText env text clipboard).2 =
            [ClipCall.OpenClipboard, ClipCall.GlobalAlloc ((text.length + 1) * sizeof_wchar_t),
              ClipCall.CloseClipboard]) := by
  constructor
  · intro hopened
    simp [SetClipBoardToText, hopened]
  · intro hopened hallocated
    simp [SetClipBoardToText, hopened, hallocated]

/-- Witness of claim C7: with no memory for the buffer the text "old" stays on
the clipboard. -/
theorem SetClipBoardToText_no_effect_on_failure_witness :
    sampleClipboardEnvNoMemory.opened = true ∧ sampleClipboardEnvNoMemory.allocated = false ∧
      (SetClipBoardToText sampleClipboardEnvNoMemory [65] sampleClipboard).1.data =
        sampleClipboard.data :=
  ⟨rfl, rfl,
    ((SetClipBoardToText_no_effect_on_failure sampleClipboardEnvNoMemory [65]
      sampleClipboard).2 rfl rfl).1⟩

/-! ## The lifecycle manager: claims C5, C8 -/

/-- Claim C5, at two interleavings.  When the constructing thread runs first,
it evaluates `uiState->_uiThread` while `uiState` is still null.  When it runs
after the spawned thread has created the window and constructed the
`OverlayUIState`, it stores the thread handle although the ready event has not
been signalled yet. -/
theorem CreateInternal_stores_handle_before_wait :
    (CreateInternal.run [Turn.main] CreateInternal.start).main = MainPc.nullDereferenced ∧
      (CreateInternal.run [Turn.ui true, Turn.ui true, Turn.main] CreateInternal.start).main =
        MainPc.handleStored ∧
      (CreateInternal.run [Turn.ui true, Turn.ui true, Turn.main]
        CreateInternal.start).uiCreatedEvent = false := by
  decide

theorem UiThread_step_invariant (t : UiThread) (outcome : Bool) (h : t.Invariant) :
    (t.step outcome).Invariant := by
  unfold UiThread.Invariant at h ⊢
  unfold UiThread.step
  cases hpc : t.pc <;> simp [hpc] at h ⊢ <;> try (split <;> simp [h])
  all_goals simp [h, hpc]

theorem UiThread_step_invokes_after_loop (t : UiThread) (outcome : Bool)
    (h : (t.step outcome).callbackInvocations ≠ t.callbackInvocations) :
    t.pc = UiPc.loopExited := by
  unfold UiThread.step at h
  cases hpc : t.pc <;> simp [hpc] at h ⊢
  all_goals (split at h <;> simp at h)

theorem Session_step_invariant (threads : List UiThread) (i : Nat) (outcome : Bool)
    (h : ∀ t ∈ threads, t.Invariant) : ∀ t ∈ Session.step threads i outcome, t.Invariant := by
  induction threads generalizing i with
  | nil => simp [Session.step]
  | cons t rest ih =>
    cases i with
    | zero =>
      intro u hu
      simp only [Session.step, List.mem_cons] at hu
      rcases hu with rfl | hu
      · exact UiThread_step_invariant t outcome (h t (List.mem_cons_self _ _))
      · exact h u (List.mem_cons_of_mem _ hu)
    | succ i =>
      intro u hu
      simp only [Session.step, List.mem_cons] at hu
      rcases hu with rfl | hu
      · exact h u (List.mem_cons_self _ _)
      · exact ih i (fun v hv => h v (List.mem_cons_of_mem _ hv)) u hu

theorem Session_step_length (threads : List UiThread) (i : Nat) (outcome : Bool) :
    (Session.step threads i outcome).length = threads.length := by
  induction threads generalizing i with
  | nil => rfl
  | cons t rest ih => cases i <;> simp [Session.step, ih]

theorem Session_run_invariant (schedule : List (Nat × Bool)) (threads : List UiThread)
    (h : ∀ t ∈ threads, t.Invariant) : ∀ t ∈ Session.run schedule threads, t.Invariant := by
  induction schedule generalizing threads with
  | nil => exact h
  | cons turn rest ih => exact ih _ (Session_step_invariant threads turn.1 turn.2 h)

theorem Session_run_length (schedule : List (Nat × Bool)) (threads : List UiThread) :
    (Session.run schedule threads).length = threads.length := by
  induction schedule generalizing threads with
  | nil => rfl
  | cons turn rest ih => simp [Session.run, ih, Session_step_length]

theorem Session_start_invariant (K : Nat) : ∀ t ∈ Session.start K, t.Invariant := by
  intro t ht
  simp only [Session.start, List.mem_replicate] at ht
  rw [ht.2]
  simp [UiThread.Invariant, UiThread.start]

theorem Session_invocations_of_allFinished (threads : List UiThread)
    (h : ∀ t ∈ threads, t.Invariant) (hall : Session.allFinished threads = true) :
    Session.callbackInvocations threads = threads.length := by
  induction threads with
  | nil => rfl
  | cons t rest ih =>
    simp only [Session.allFinished, List.all_cons, Bool.and_eq_true, decide_eq_true_eq] at hall
    have ht := h t (List.mem_cons_self _ _)
    unfold UiThread.Invariant at ht
    rw [if_pos hall.1] at ht
    have hrest := ih (fun v hv => h v (List.mem_cons_of_mem _ hv))
      (by simpa [Session.allFinished] using hall.2)
    simp only [Session.callbackInvocations, List.map_cons, List.sum_cons, List.length_cons] at hrest ⊢
    omega

theorem CreateInternal_step_invariant (s : CreateInternalState) (turn : Turn)
    (h : s.Invariant) : (CreateInternal.step s turn).Invariant := by
  obtain ⟨main, ⟨pc, windowExists, invocations⟩, uiState, uiCreatedEvent⟩ := s
  unfold CreateInternalState.Invariant at h ⊢
  cases turn with
  | main =>
    cases main <;> cases uiState <;> cases uiCreatedEvent <;>
      simp_all [CreateInternal.step]
  | ui outcome =>
    cases pc <;> cases uiState <;> cases uiCreatedEvent <;> cases outcome <;>
      cases windowExists <;> simp_all [CreateInternal.step, UiThread.step]

theorem CreateInternal_run_invariant (schedule : List Turn) (s : CreateInternalState)
    (h : s.Invariant) : (CreateInternal.run schedule s).Invariant := by
  induction schedule generalizing s with
  | nil => exact h
  | cons turn rest ih => exact ih _ (CreateInternal_step_invariant s turn h)

theorem CreateInternal_start_invariant : CreateInternal.start.Invariant := by
  simp [CreateInternalState.Invariant, CreateInternal.start, UiThread.start]

/-- What the ready event does guarantee: along every interleaving, when the
constructing thread is past `uiCreatedEvent.wait()`, the event is set, `uiState`
holds the `OverlayUIState`, and the spawned thread has created the window and
entered the render loop. -/
theorem CreateInternal_past_wait (schedule : List Turn)
    (h : (CreateInternal.run schedule CreateInternal.start).main = MainPc.waited ∨
      (CreateInternal.run schedule CreateInternal.start).main = MainPc.returned) :
    (CreateInternal.run schedule CreateInternal.start).uiCreatedEvent = true ∧
      (CreateInternal.run schedule CreateInternal.start).uiState = true ∧
      ((CreateInternal.run schedule CreateInternal.start).ui.pc = UiPc.inRunUILoop ∨
        (CreateInternal.run schedule CreateInternal.start).ui.pc = UiPc.loopExited ∨
        (CreateInternal.run schedule CreateInternal.start).ui.pc = UiPc.finished) := by
  have hinv := CreateInternal_run_invariant schedule _ CreateInternal_start_invariant
  have hevent := hinv.2.2 h
  exact ⟨hevent, hinv.1 hevent⟩

/-- Claim C8 as stated fails for two overlays: when both UI threads have run to
their end, the callback of the shared `CommonState` has been invoked twice. -/
theorem sessionCompletedCallback_invoked_twice_for_two_overlays :
    (Session.allFinished
        (Session.run (sampleThreadSchedule 0 ++ sampleThreadSchedule 1) (Session.start 2)) = true ∧
      Session.callbackInvocations
        (Session.run (sampleThreadSchedule 0 ++ sampleThreadSchedule 1) (Session.start 2)) = 2) ∧
    ¬ ∀ (K : Nat) (schedule : List (Nat × Bool)), 1 ≤ K →
        Session.allFinished (Session.run schedule (Session.start K)) = true →
        Session.callbackInvocations (Session.run schedule (Session.start K)) = 1 := by
  refine ⟨by decide, ?_⟩
  intro h
  have h2 := h 2 (sampleThreadSchedule 0 ++ sampleThreadSchedule 1) (by decide) (by decide)
  revert h2
  decide

/-- Claim C8, amended: for every number K of overlays over the same `CommonState`
and every interleaving of their UI threads, each thread has invoked the
session-completed callback once if it is finished and not at all otherwise, so
the callback has been invoked exactly K times once all K threads are finished;
and a step of a thread invokes the callback only from the position after its
`RunUILoop` returned, and then once. -/
theorem sessionCompletedCallback_once_per_overlay (K : Nat) (schedule : List (Nat × Bool)) :
    (∀ t ∈ Session.run schedule (Session.start K),
        t.callbackInvocations = if t.pc = UiPc.finished then 1 else 0) ∧
      (Session.allFinished (Session.run schedule (Session.start K)) = true →
        Session.callbackInvocations (Session.run schedule (Session.start K)) = K) ∧
      ∀ (t : UiThread) (outcome : Bool),
        (t.step outcome).callbackInvocations ≠ t.callbackInvocations →
          t.pc = UiPc.loopExited ∧
            (t.step outcome).callbackInvocations = t.callbackInvocations + 1 := by
  have hinv := Session_run_invariant schedule (Session.start K) (Session_start_invariant K)
  refine ⟨hinv, ?_, ?_⟩
  · intro hall
    rw [Session_invocations_of_allFinished _ hinv hall, Session_run_length]
    simp [Session.start]
  · intro t outcome h
    have hpc := UiThread_step_invokes_after_loop t outcome h
    exact ⟨hpc, by simp [UiThread.step, hpc]⟩

/-- Witness of the amended claim C8: two overlays, both UI threads finished, two
invocations of the callback. -/
theorem sessionCompletedCallback_once_per_overlay_witness :
    Session.allFinished
        (Session.run (sampleThreadSchedule 0 ++ sampleThreadSchedule 1) (Session.start 2)) = true ∧
      Session.callbackInvocations
        (Session.run (sampleThreadSchedule 0 ++ sampleThreadSchedule 1) (Session.start 2)) = 2 :=
  ⟨by decide,
    (sessionCompletedCallback_once_per_overlay 2
      (sampleThreadSchedule 0 ++ sampleThreadSchedule 1)).2.1 (by decide)⟩

end OverlayUI
